import Mathlib

/-!
Verification development for the `video-transcriber` repository.

The definitions below are a shallow embedding of the job-orchestration core
(`app/services/task_manager.py`) together with the pieces of
`app/config.py` (`Settings`), `app/services/transcription.py`
(`render_output`) and the session semantics of `app/db.py`
(`session_scope`: commit on normal exit, rollback and re-raise on
exception) that the task manager depends on.

Modelling conventions:
- The embedding is per job (every structure in `TaskManager` is keyed by
  `task_id`; all claims are about a single job, so the state carries the
  slice of each dictionary for one fixed job id).
- Python exceptions are modelled with `Except PyErr`; state mutations made
  before a raise are kept (state is threaded explicitly), while mutations
  made inside an open `session_scope` are discarded when the session body
  raises (rollback), exactly as in `app/db.py`.
- `float` progress values are modelled as `Rat`; every progress constant in
  the program is integral, so this is exact.
- Timestamps (`created_at`/`updated_at`) and log output are not modelled:
  no claim mentions them.
- The external collaborators (downloader, ffmpeg, whisper, Minio) are
  oracles: a `StageOracle` records the outcome each external call would
  return if reached.
-/

namespace VideoTranscriber

/-- Python exceptions that the embedded code can raise.
`attributeError a` models `AttributeError` from reading an undeclared
attribute `a` on the pydantic `Settings` object; `operationalError` models
the driver error raised by `session.execute` when the durable store is
unavailable; `stageError` carries `str(exc)` of an exception raised by a
pipeline stage (download / ffmpeg / whisper / Minio). -/
inductive PyErr where
  | attributeError (attr : String)
  | operationalError (msg : String)
  | stageError (msg : String)
deriving Repr, DecidableEq

/-- The message `str(exc)` used by `_process_task` when it writes the
failure status (task_manager.py line 164).  For `AttributeError` the real
interpreter renders the attribute name inside the message; only the
attribute name matters to any claim. -/
def PyErr.pymsg : PyErr → String
  | .attributeError a => "Settings object has no attribute " ++ a
  | .operationalError m => m
  | .stageError m => m

/-- One row of `video_ts_task` (app/models.py, class `VideoTSTask`),
restricted to the columns the task manager reads or writes. -/
structure TaskRow where
  status : String
  progress : Option Rat
  errorMessage : Option String
deriving Repr, DecidableEq

/-- One row of `video_ts_detail` (app/models.py, class `VideoTSDetail`),
restricted to the columns carried by `TaskDetailResponse`
(app/schemas.py). -/
structure DetailRow where
  fileName : String
  filePath : String
  fileSize : Option Nat
  fileFormat : String
  detectedLanguage : Option String
deriving Repr, DecidableEq

/-- `SSEMessage` (app/schemas.py): the ProgressEvent pushed to
subscribers. -/
structure SSEMessage where
  status : String
  progress : Rat
  message : Option String
  resultFiles : Option (List DetailRow)
deriving Repr, DecidableEq

/-- The state visible to one job: its durable rows, the slice of the
`TaskManager` in-memory dictionaries for its `task_id`, and ghost traces.

* `db` — the job's `video_ts_task` row (`none` once deleted out of band);
* `details` — the job's `video_ts_detail` rows;
* `subscribers` — `TaskManager._subscribers[task_id]`: `none` when the key
  is absent (initially, or after `del` in `_cleanup_subscribers`), else the
  list of registered queues, each a queue id paired with its contents;
* `nextQueueId` — fresh-name supply for queues;
* `localResults` — `TaskManager._local_results.get(task_id)`;
* `published` — ghost: every `SSEMessage` passed to `_publish`, in order;
* `streamed` — ghost: every event yielded by an `sse_stream` generator;
* `tempDirExists` — whether the job's working directory
  `settings.TEMP_DIR / str(task_id)` exists on disk;
* `writeCalls` — ghost: number of `_update_status` invocations so far,
  used to index store-availability fault injection. -/
structure MgrState where
  db : Option TaskRow
  details : List DetailRow
  subscribers : Option (List (Nat × List SSEMessage))
  nextQueueId : Nat
  localResults : Option DetailRow
  published : List SSEMessage
  streamed : List SSEMessage
  tempDirExists : Bool
  writeCalls : Nat
deriving Repr, DecidableEq

/-- Environment configuration for a run.  The first two fields give the
value the corresponding settings attribute would have were it declared on
`Settings` (it is not, see `settingsDeclaredFields`); `DEFAULT_OUTPUT_FORMAT`
and `TEMP_DIR` are declared fields of `Settings`; `dbOk n` says whether the
durable store is reachable at the `n`-th status write;
`resolveFileUrl` is `storage.resolve_file_url` (app/services/storage.py). -/
structure EnvCfg where
  FILE_STORAGE_STRATEGY : String
  CLEAN_TMP_FILE : Bool
  DEFAULT_OUTPUT_FORMAT : String
  TEMP_DIR : String
  taskId : String
  dbOk : Nat → Bool
  resolveFileUrl : String → String

/-- `CreateTaskRequest` (app/schemas.py), restricted to the fields
`_process_task` consumes itself.  `model`, `device`, `compute_type` and
`language` are forwarded verbatim to the transcription oracle and do not
influence the coordinator, so they are not repeated here. -/
structure CreateTaskRequest where
  output_format : Option String
deriving Repr, DecidableEq

/-- Outcomes of the external collaborators, as consumed by
`_process_task`.  An `Except.error m` means the call raises an exception
whose `str` is `m`.

* `notifyCalls` — the `(message, progress)` arguments of each invocation
  of the `progress_cb` callback made by `downloader.download_media` while
  the download runs (modelled as happening, in order, during the download
  stage);
* `download` — result of `downloader.download_media`: local path and title;
* `extract_audio` — result of `downloader.extract_audio_to_wav`;
* `transcribe` — result of `transcription.transcribe_audio`;
* `upload` — result of `storage.upload_result_file`: the object key;
* `public_url` — result of `storage.build_public_url`;
* `outputFileSize` — `output_path.stat().st_size` of the rendered file. -/
structure StageOracle where
  notifyCalls : List (String × Option Rat)
  download : Except String (String × String)
  extract_audio : Except String (String × Option Nat)
  transcribe : Except String (String × String)
  upload : Except String String
  public_url : Option String
  outputFileSize : Nat

/-! ### app/config.py -/

/-- The field names declared on `app.config.Settings`
(config.py lines 17-65).  `model_config` sets `extra="ignore"`
(line 14), so values for any other name are discarded at construction
and attribute access on any other name raises `AttributeError`. -/
def settingsDeclaredFields : List String :=
  ["DATABASE_URL",
   "MINIO_ENDPOINT", "MINIO_ACCESS_KEY", "MINIO_SECRET_KEY", "MINIO_BUCKET",
   "MINIO_REGION", "MINIO_SECURE", "MINIO_PREFIX", "MINIO_PUBLIC_BASE_URL",
   "PROXY_ENABLED", "PROXY_URL", "PROXY_BYPASS",
   "FASTER_WHISPER_MODEL", "FASTER_WHISPER_DEVICE", "FASTER_WHISPER_COMPUTE_TYPE",
   "OPENAI_API_KEY", "OPENAI_BASE_URL",
   "YOUTUBE_PLAYER_CLIENT", "YOUTUBE_PO_TOKEN",
   "DEFAULT_OUTPUT_FORMAT", "TEMP_DIR",
   "FFMPEG_BIN", "YTDLP_BIN", "YTDLP_COOKIES_FILE"]

/-- Python attribute lookup `settings.<name>` on the shared `Settings`
instance.  `v` is the value the attribute would carry were it declared;
for a name not declared on the class the lookup raises
`AttributeError` (pydantic models with `extra="ignore"` store no
undeclared attributes). -/
def settingsAttr (name : String) (v : α) : Except PyErr α :=
  if settingsDeclaredFields.contains name then .ok v
  else .error (.attributeError name)

/-! ### TaskManager._sanitize_filename (task_manager.py lines 55-62) -/

/-- The characters of the raw string `r'\\/:*?"<>|'` at line 59 (the raw
literal spells the backslash twice). -/
def invalidFilenameChars : List Char :=
  ['\\', '\\', '/', ':', '*', '?', '"', '<', '>', '|']

/-- Whitespace as understood by Python `str.strip()` with no argument
(ASCII portion; the sanitizer's guarantees do not depend on the exact
whitespace set, only on `strip` removing characters). -/
def isPySpace (c : Char) : Bool :=
  c == ' ' || c == '\t' || c == '\n' || c == '\x0d' || c == '\x0b' || c == '\x0c'

/-- Python `s.strip()` on a character list: drop leading and trailing
whitespace. -/
def pyStrip (cs : List Char) : List Char :=
  ((cs.dropWhile isPySpace).reverse.dropWhile isPySpace).reverse

/-- The character pipeline of `_sanitize_filename`:
line 60 replaces every invalid character by an underscore, line 61 strips
outer whitespace and then replaces every remaining space by an
underscore. -/
def sanitizeChars (cs : List Char) : List Char :=
  let cleaned := cs.map fun ch => if ch ∈ invalidFilenameChars then '_' else ch
  (pyStrip cleaned).map fun ch => if ch = ' ' then '_' else ch

/-- `TaskManager._sanitize_filename` (lines 55-62): clean the title and
fall back to `"transcript"` when the cleaned string is empty
(`return cleaned or "transcript"`). -/
def sanitize_filename (name : String) : String :=
  let cleaned := String.mk (sanitizeChars name.toList)
  if cleaned = "" then "transcript" else cleaned

/-! ### Broadcaster primitives (task_manager.py lines 42-68, 237-262) -/

/-- `TaskManager.subscribe` (lines 42-47): create a fresh queue and append
it to `self._subscribers[task_id]` (a `defaultdict`, so an absent key
becomes a one-element list).  Returns the queue's id. -/
def subscribe (st : MgrState) : Nat × MgrState :=
  (st.nextQueueId,
   { st with
       nextQueueId := st.nextQueueId + 1,
       subscribers := some ((st.subscribers.getD []) ++ [(st.nextQueueId, [])]) })

/-- `TaskManager._publish` (lines 49-53): `put_nowait` the message into
every queue currently registered for the task (`get(task_id, [])`, so no
queues means the event is discarded).  The ghost `published` trace records
the call regardless. -/
def publish (m : SSEMessage) (st : MgrState) : MgrState :=
  { st with
      subscribers := st.subscribers.map (List.map fun q => (q.1, q.2 ++ [m])),
      published := st.published ++ [m] }

/-- `TaskManager._cleanup_subscribers` (lines 64-68): delete the whole
registration list for the task id, if present. -/
def cleanup_subscribers (st : MgrState) : MgrState :=
  { st with subscribers := none }

/-- `TaskManager._insert_detail` (lines 237-262): insert one
`video_ts_detail` row in its own committed session. -/
def insert_detail (d : DetailRow) (st : MgrState) : MgrState :=
  { st with details := st.details ++ [d] }

/-! ### TaskManager._update_status (task_manager.py lines 171-235) -/

/-- Lines 187-193, the in-session partial update: each field is applied
only when provided, with Python truthiness (`if status:` skips the empty
string; `if status == "failed" and message:` requires a non-empty
message). -/
def applySessionUpdate (status : Option String) (progress : Option Rat)
    (message : Option String) (row : TaskRow) : TaskRow :=
  let r1 := match status with
    | some s => if s = "" then row else { row with status := s }
    | none => row
  let r2 := match progress with
    | some p => { r1 with progress := some p }
    | none => r1
  match status, message with
  | some "failed", some m => if m = "" then r2 else { r2 with errorMessage := some m }
  | _, _ => r2

/-- `TaskManager._fetch_details` (lines 264-273): read the job's detail
rows, then consult `settings.FILE_STORAGE_STRATEGY` (an attribute the
`Settings` class does not declare) to decide whether to append the
in-memory local result. -/
def fetch_details (cfg : EnvCfg) (st : MgrState) : Except PyErr (List DetailRow) :=
  let details := st.details
  match settingsAttr "FILE_STORAGE_STRATEGY" cfg.FILE_STORAGE_STRATEGY with
  | .error e => .error e
  | .ok strat =>
    if strat.toLower = "local" then
      match st.localResults with
      | some d => .ok (details ++ [d])
      | none => .ok details
    else .ok details

/-- `TaskManager._update_status` (lines 171-235).

Inside `session_scope` (commit on normal exit, rollback on exception):
load the row (`session.execute`, which raises when the store is
unavailable — `cfg.dbOk`); silently return when the row is gone
(line 184-185); otherwise apply the partial update and call
`_fetch_details`.  An exception inside the session rolls the row update
back and re-raises.  After the session: back-fill the failure message from
the row (lines 199-201), build the result-file list (lines 203-215, which
reads `settings.FILE_STORAGE_STRATEGY` again), construct the `SSEMessage`
and `_publish` it (lines 217-235; logging not modelled). -/
def update_status (cfg : EnvCfg) (status : Option String) (progress : Option Rat)
    (message : Option String) (st0 : MgrState) : Except PyErr Unit × MgrState :=
  let st := { st0 with writeCalls := st0.writeCalls + 1 }
  if cfg.dbOk st0.writeCalls then
    match st.db with
    | none => (.ok (), st)
    | some row =>
      let row1 := applySessionUpdate status progress message row
      match fetch_details cfg st with
      | .error e => (.error e, st)
      | .ok details =>
        let st1 := { st with db := some row1 }
        let msgMessage :=
          if status = some "failed" ∧ (message = none ∨ message = some "") then
            row1.errorMessage
          else message
        let rfRes : Except PyErr (Option (List DetailRow)) :=
          if details.isEmpty then .ok none
          else
            match settingsAttr "FILE_STORAGE_STRATEGY" cfg.FILE_STORAGE_STRATEGY with
            | .error e => .error e
            | .ok strat =>
              .ok (some (details.map fun d =>
                if strat.toLower = "minio" then
                  { d with filePath := cfg.resolveFileUrl d.filePath }
                else d))
        match rfRes with
        | .error e => (.error e, st1)
        | .ok rf0 =>
          match settingsAttr "FILE_STORAGE_STRATEGY" cfg.FILE_STORAGE_STRATEGY with
          | .error e => (.error e, st1)
          | .ok strat2 =>
            let resultFiles :=
              if strat2.toLower = "local" then
                match st1.localResults with
                | some d => some ((rf0.getD []) ++ [d])
                | none => rf0
              else rf0
            let msg : SSEMessage :=
              { status := row1.status,
                progress := row1.progress.getD 0,
                message := msgMessage,
                resultFiles := resultFiles }
            (.ok (), publish msg st1)
  else (.error (.operationalError "database unavailable"), st)

/-- `TaskManager.fetch_task_with_details` (lines 275-285). -/
def fetch_task_with_details (cfg : EnvCfg) (st : MgrState) :
    Except PyErr (Option (TaskRow × List DetailRow)) :=
  match st.db with
  | none => .ok none
  | some row =>
    match fetch_details cfg st with
    | .error e => .error e
    | .ok details => .ok (some (row, details))

/-! ### transcription.render_output (transcription.py lines 81-86) -/

/-- `transcription.render_output`. -/
def render_output (text : String) (outputFormat : String) : String :=
  if outputFormat = "markdown" then "## 转写结果" ++ "\n\n" ++ text else text

/-! ### TaskManager._process_task (task_manager.py lines 75-169) -/

/-- The `_notify` closure (lines 84-98), invoked by the downloader's
progress callback.  A progress-bearing call is suppressed unless
`last_bucket` is still `-1` (first such call); the scheduled
`_update_status` coroutine runs on the event loop and any exception it
raises is captured by the unread future, hence discarded.  Returns the new
`last_bucket`. -/
def notify_step (cfg : EnvCfg) (message : String) (progress : Option Rat)
    (lastBucket : Int) (st : MgrState) : Int × MgrState :=
  match progress with
  | some _ =>
    if lastBucket ≠ -1 then (lastBucket, st)
    else
      ((0 : Int), (update_status cfg none progress (some message) st).2)
  | none =>
    (lastBucket, (update_status cfg none none (some message) st).2)

/-- Sequencing for the embedded Python: propagate an exception, keeping
the state reached so far. -/
def pyBind (r : Except PyErr α × MgrState)
    (f : α → MgrState → Except PyErr β × MgrState) : Except PyErr β × MgrState :=
  match r with
  | (.error e, st) => (.error e, st)
  | (.ok a, st) => f a st

/-- The `try` body of `_process_task` (lines 100-162): the four pipeline
stages interleaved with the checkpoint status writes, then rendering and
the storage-strategy branch. -/
def process_body (cfg : EnvCfg) (o : StageOracle) (req : CreateTaskRequest)
    (st : MgrState) : Except PyErr Unit × MgrState :=
  pyBind (update_status cfg (some "processing") (some 5) (some "开始处理") st) fun _ st =>
  -- download_media first creates the working directory (downloader.py line 53)
  let st := { st with tempDirExists := true }
  -- intra-stage progress callbacks fired while the download runs
  let st := (o.notifyCalls.foldl
    (fun (acc : Int × MgrState) c => notify_step cfg c.1 c.2 acc.1 acc.2)
    ((-1 : Int), st)).2
  match o.download with
  | .error m => (.error (.stageError m), st)
  | .ok (_downloadPath, mediaTitle) =>
  pyBind (update_status cfg none (some 25) (some "下载完成，开始抽取音频") st) fun _ st =>
  match o.extract_audio with
  | .error m => (.error (.stageError m), st)
  | .ok (_audioPath, _fileSize) =>
  pyBind (update_status cfg none (some 50) (some "音频准备完成，开始转写") st) fun _ st =>
  match o.transcribe with
  | .error m => (.error (.stageError m), st)
  | .ok (text, detectedLang) =>
  pyBind (update_status cfg none (some 80) (some "转写完成，开始上传结果") st) fun _ st =>
  let outputFormat := req.output_format.getD cfg.DEFAULT_OUTPUT_FORMAT
  let _rendered := render_output text outputFormat
  let baseName := sanitize_filename mediaTitle
  let filename := baseName ++ "." ++ (if outputFormat = "markdown" then "md" else "txt")
  let outputPath := cfg.TEMP_DIR ++ "/" ++ cfg.taskId ++ "/" ++ filename
  -- output_path.write_text: the rendered file lands inside the working dir
  match settingsAttr "FILE_STORAGE_STRATEGY" cfg.FILE_STORAGE_STRATEGY with
  | .error e => (.error e, st)
  | .ok strat =>
    if strat.toLower = "local" then
      let localDetail : DetailRow :=
        ⟨filename, outputPath, some o.outputFileSize, outputFormat, some detectedLang⟩
      let st := { st with localResults := some localDetail }
      pyBind (update_status cfg (some "completed") (some 100) (some "任务完成") st) fun _ st =>
        (.ok (), st)
    else
      match o.upload with
      | .error m => (.error (.stageError m), st)
      | .ok objectKey =>
        let filePath := (o.public_url).getD objectKey
        let st := insert_detail
          ⟨filename, filePath, some o.outputFileSize, outputFormat, some detectedLang⟩ st
        pyBind (update_status cfg (some "completed") (some 100) (some "任务完成") st) fun _ st =>
          (.ok (), st)

/-- `TaskManager._process_task` (lines 75-169): the `try` body, the
`except Exception` handler (one terminal `failed` write carrying
`str(exc)`), and the `finally` block (lines 165-169: consult
`settings.CLEAN_TMP_FILE`, remove the working directory, then
`_cleanup_subscribers`).  An exception raised inside `finally` replaces
the in-flight one and escapes the coroutine. -/
def process_task (cfg : EnvCfg) (o : StageOracle) (req : CreateTaskRequest)
    (st0 : MgrState) : Except PyErr Unit × MgrState :=
  let afterTry :=
    match process_body cfg o req st0 with
    | (.ok a, st) => ((Except.ok a : Except PyErr Unit), st)
    | (.error e, st) =>
      match update_status cfg (some "failed") none (some e.pymsg) st with
      | (.ok _, st2) => ((Except.ok () : Except PyErr Unit), st2)
      | (.error e2, st2) => ((Except.error e2 : Except PyErr Unit), st2)
  match settingsAttr "CLEAN_TMP_FILE" cfg.CLEAN_TMP_FILE with
  | .error e => (.error e, afterTry.2)
  | .ok clean =>
    let st := if clean && afterTry.2.tempDirExists then
        { afterTry.2 with tempDirExists := false }
      else afterTry.2
    (afterTry.1, cleanup_subscribers st)

/-! ### TaskManager.sse_stream (task_manager.py lines 287-325) -/

/-- Lines 287-314 of `sse_stream`: subscribe, fetch the current snapshot,
yield the synthetic current-state event, and either finish (terminal
snapshot: `_cleanup_subscribers` then `return`) or proceed to the
forwarding loop.  Returns `some queueId` when the generator proceeds to
the loop and `none` when it ended on the terminal snapshot; every yielded
event is appended to the ghost `streamed` trace. -/
def sse_stream_open (cfg : EnvCfg) (st : MgrState) :
    Except PyErr (Option Nat) × MgrState :=
  let qst := subscribe st
  let q := qst.1
  let st := qst.2
  match fetch_task_with_details cfg st with
  | .error e => (.error e, st)
  | .ok none => (.ok (some q), st)
  | .ok (some (row, details)) =>
    let initFiles : Option (List DetailRow) :=
      if details.isEmpty then none
      else some (details.map fun d => { d with filePath := cfg.resolveFileUrl d.filePath })
    let initMsg := if row.status = "failed" then row.errorMessage else some "当前状态"
    let ev : SSEMessage :=
      { status := row.status, progress := row.progress.getD 0,
        message := initMsg, resultFiles := initFiles }
    let st := { st with streamed := st.streamed ++ [ev] }
    if row.status = "completed" ∨ row.status = "failed" then
      (.ok none, cleanup_subscribers st)
    else
      (.ok (some q), st)

/-- The forwarding loop (lines 316-322) applied to the sequence of
messages the queue delivers: events are forwarded verbatim until the first
terminal one, inclusive, then the loop breaks. -/
def forward_until_terminal : List SSEMessage → List SSEMessage
  | [] => []
  | m :: rest =>
    if m.status = "completed" ∨ m.status = "failed" then [m]
    else m :: forward_until_terminal rest

/-- The `finally` block of `sse_stream` (lines 323-325), executed when the
forwarding loop breaks on a terminal event or when the consumer
disconnects (the generator is closed): it calls
`_cleanup_subscribers(task_id)`, deleting every registration for the job
id. -/
def sse_stream_teardown (st : MgrState) : MgrState :=
  cleanup_subscribers st

/-! ### Concrete fixtures -/

/-- A freshly created job row (`app/api/routes.py` lines 34-44:
`status="pending"`, `progress=0`). -/
def initialRow : TaskRow := { status := "pending", progress := some 0, errorMessage := none }

/-- State right after job creation: row present, no details, no
subscribers, no local result, empty traces. -/
def initState : MgrState :=
  { db := some initialRow, details := [], subscribers := none, nextQueueId := 0,
    localResults := none, published := [], streamed := [], tempDirExists := false,
    writeCalls := 0 }

/-- A benign environment: store always reachable, markdown disabled,
Minio strategy value (were the attribute declared). -/
def cfg0 : EnvCfg :=
  { FILE_STORAGE_STRATEGY := "minio", CLEAN_TMP_FILE := true,
    DEFAULT_OUTPUT_FORMAT := "txt", TEMP_DIR := "tmp", taskId := "job-1",
    dbOk := fun _ => true, resolveFileUrl := fun s => s }

/-- Same environment with the durable store unreachable on every write. -/
def cfgDbDown : EnvCfg := { cfg0 with dbOk := fun _ => false }

/-- A request with no explicit output format. -/
def req0 : CreateTaskRequest := { output_format := none }

/-- An oracle on which every external stage succeeds. -/
def oracleOk : StageOracle :=
  { notifyCalls := [("正在下载媒体", some 10)],
    download := .ok ("tmp/job-1/media", "My Video"),
    extract_audio := .ok ("tmp/job-1/a.wav", some 2048),
    transcribe := .ok ("hello world", "en"),
    upload := .ok ("translation-result/job-1/My_Video.txt"),
    public_url := none,
    outputFileSize := 11 }

/-- An oracle whose download stage raises with message `boom`. -/
def oracleDownloadFail : StageOracle :=
  { oracleOk with notifyCalls := [], download := .error "boom" }

/-- State in which the job row was deleted out of band. -/
def noRowState : MgrState := { initState with db := none }

/-- State with one live subscription (queue id 0) registered for the job. -/
def stWithSub : MgrState :=
  { initState with subscribers := some [(0, [])], nextQueueId := 1 }

/-- State whose row already reached the `completed` terminal state. -/
def completedState : MgrState :=
  { initState with db := some ⟨"completed", some 100, none⟩ }

/-- State whose row already reached the `failed` terminal state. -/
def failedState : MgrState :=
  { initState with db := some ⟨"failed", some 10, some "boom"⟩ }

/-! ### Invariant of claim C9 -/

/-- The claimed invariant on the durable job row: a failed row carries a
non-empty error message, and `progress == 100` exactly when
`status == "completed"`. -/
def rowInvariant (r : TaskRow) : Bool :=
  (r.status != "failed" || (match r.errorMessage with
    | some m => m != ""
    | none => false)) &&
  ((r.progress == some (100 : Rat)) == (r.status == "completed"))

/-- The invariant lifted to a possibly deleted row. -/
def dbInvariant : Option TaskRow → Bool
  | none => true
  | some r => rowInvariant r

/-! ### Shared lemmas -/

/-- `Settings` declares no field `FILE_STORAGE_STRATEGY`, so the attribute
lookup raises for every hypothetical value. -/
theorem settingsAttr_storage_strategy (v : α) :
    settingsAttr "FILE_STORAGE_STRATEGY" v
      = .error (.attributeError "FILE_STORAGE_STRATEGY") := rfl

/-- `Settings` declares no field `CLEAN_TMP_FILE`, so the attribute lookup
raises for every hypothetical value. -/
theorem settingsAttr_clean_tmp (v : α) :
    settingsAttr "CLEAN_TMP_FILE" v
      = .error (.attributeError "CLEAN_TMP_FILE") := rfl

/-- `_fetch_details` raises `AttributeError` on every input: it reads
`settings.FILE_STORAGE_STRATEGY`, which the `Settings` class does not
declare. -/
theorem fetch_details_raises (cfg : EnvCfg) (st : MgrState) :
    fetch_details cfg st = .error (.attributeError "FILE_STORAGE_STRATEGY") := by
  simp [fetch_details, settingsAttr_storage_strategy]

/-- `_update_status` never changes the observable state: when the store is
down the call raises before touching the row; when the row is gone it
returns silently; when the row exists, `_fetch_details` raises inside the
session, the session rolls the partial update back, and nothing is
published.  Only the ghost call counter advances. -/
theorem update_status_state (cfg : EnvCfg) (status : Option String)
    (progress : Option Rat) (message : Option String) (st : MgrState) :
    (update_status cfg status progress message st).2
      = { st with writeCalls := st.writeCalls + 1 } := by
  rcases st with ⟨db, dtl, subs, nq, lr, pub, strm, tmp, wc⟩
  cases h : cfg.dbOk wc <;> cases db <;>
    simp [update_status, h, fetch_details_raises]

/-! ### Claim C1 -/

/-- C1 (refuting evaluation): the claim says the ProgressEvents published
for a job end in exactly one terminal event.  On a fresh pending job whose
stages would all succeed, the coordinator publishes no event at all — the
very first `_update_status` raises `AttributeError` inside
`_fetch_details` before reaching `_publish`, and the run escapes through
the `finally` block with the `CLEAN_TMP_FILE` attribute error. -/
theorem c1_run_publishes_no_event :
    (process_task cfg0 oracleOk req0 initState).2.published = [] ∧
    (process_task cfg0 oracleOk req0 initState).1
      = .error (.attributeError "CLEAN_TMP_FILE") := by
  exact ⟨rfl, rfl⟩

/-! ### Claim C2 -/

/-- C2 (refuting evaluation): the claim says cleanup detaches all live
subscriptions and removes the working directory on every terminal path.
On a run with one live subscription, the `finally` block raises
`AttributeError` at `settings.CLEAN_TMP_FILE` before
`_cleanup_subscribers` is reached: the subscription stays registered and
the exception escapes `_process_task`. -/
theorem c2_finalizer_raises_and_subscription_survives :
    (process_task cfg0 oracleOk req0 stWithSub).2.subscribers = some [(0, [])] ∧
    (process_task cfg0 oracleOk req0 stWithSub).1
      = .error (.attributeError "CLEAN_TMP_FILE") := by
  exact ⟨rfl, rfl⟩

/-! ### Claim C3 -/

/-- C3 counterexample: two subscribers stream the same job id (row absent,
so both generators reach the forwarding loop).  When the first consumer
disconnects, its generator's `finally` runs `_cleanup_subscribers`, which
deletes the whole registration list — the second subscriber's registration
is gone as well, contradicting the claim that every other live
subscription remains registered. -/
theorem c3_counterexample :
    ((sse_stream_open cfg0 ((sse_stream_open cfg0 noRowState).2)).2.subscribers
      = some [(0, []), (1, [])]) ∧
    ((sse_stream_teardown
        ((sse_stream_open cfg0 ((sse_stream_open cfg0 noRowState).2)).2)).subscribers
      = none) := by
  exact ⟨rfl, rfl⟩

/-- C3 amended: when any one subscriber's stream ends, the stream's
finalizer removes every registration for that job id (it calls the
job-wide `_cleanup_subscribers`), not only its own; the job's durable row,
result rows and published-event history are untouched. -/
theorem c3_amended_teardown_removes_every_subscription (st : MgrState) :
    (sse_stream_teardown st).subscribers = none ∧
    (sse_stream_teardown st).db = st.db ∧
    (sse_stream_teardown st).details = st.details ∧
    (sse_stream_teardown st).published = st.published := by
  exact ⟨rfl, rfl, rfl, rfl⟩

/-! ### Claim C4 -/

/-- C4 (refuting evaluation): the claim says a download failure with
message `boom` ends in one terminal `failed` transition whose
`errorMessage` contains `boom`.  In fact the run never reaches the
download stage (the first status write raises), the `failed` write in the
`except` handler raises as well and its session rolls back, so the
durable row stays `pending` with `errorMessage = none`; no detail row is
inserted and nothing is published. -/
theorem c4_download_failure_never_recorded :
    (process_task cfg0 oracleDownloadFail req0 initState).2.db = some initialRow ∧
    (process_task cfg0 oracleDownloadFail req0 initState).2.details = [] ∧
    (process_task cfg0 oracleDownloadFail req0 initState).2.published = [] := by
  exact ⟨rfl, rfl, rfl⟩

/-! ### Claim C5 -/

/-- C5 (refuting evaluation): the claim says an all-success run publishes
the checkpoint progress values 5, 25, 50, 80, 100.  The run publishes
nothing: every `_update_status` raises before `_publish`. -/
theorem c5_no_checkpoints_published :
    ((process_task cfg0 oracleOk req0 initState).2.published.map
      fun m => m.progress) = [] := by
  exact rfl

/-! ### Claim C6 -/

/-- C6: when the job row no longer exists, `_update_status` is a silent
no-op — `scalar_one_or_none` yields nothing and the function returns
before any other effect: no exception, no write, no published event
(only the ghost call counter moves). -/
theorem c6_update_status_missing_row_is_noop (cfg : EnvCfg)
    (status : Option String) (progress : Option Rat) (message : Option String)
    (st : MgrState) (hdb : st.db = none) (hok : cfg.dbOk st.writeCalls = true) :
    update_status cfg status progress message st
      = (.ok (), { st with writeCalls := st.writeCalls + 1 }) := by
  rcases st with ⟨db, dtl, subs, nq, lr, pub, strm, tmp, wc⟩
  dsimp only at hdb hok
  subst hdb
  simp [update_status, hok]

/-- C6 witness: the theorem applied to a concrete deleted-row state. -/
theorem c6_witness :
    update_status cfg0 none none none noRowState
      = (.ok (), { noRowState with writeCalls := noRowState.writeCalls + 1 }) :=
  c6_update_status_missing_row_is_noop cfg0 none none none noRowState rfl rfl

/-! ### Claim C7 -/

/-- C7 counterexample: the claim says a store failure during an
intermediate status write is swallowed at the `_update_status` choke point
and not propagated.  With the store unavailable, the concrete intermediate
write (progress 25) raises `OperationalError` straight back to its
caller — `_update_status` contains no exception handler. -/
theorem c7_counterexample :
    (update_status cfgDbDown none (some 25) (some "下载完成，开始抽取音频") initState).1
      = .error (.operationalError "database unavailable") := by
  exact rfl

/-- C7 amended: a store failure during a status write always propagates
out of `_update_status` to the coordinator; in `_process_task` the
surrounding `except` catches it and attempts the terminal `failed` write
(which fails the same way), so an otherwise-successful run does not reach
`completed`: the row is left in its initial pending state and nothing is
published. -/
theorem c7_amended_store_errors_propagate :
    (∀ (status : Option String) (progress : Option Rat)
        (message : Option String) (st : MgrState),
      (update_status cfgDbDown status progress message st).1
        = .error (.operationalError "database unavailable")) ∧
    (process_task cfgDbDown oracleOk req0 initState).2.db = some initialRow ∧
    (process_task cfgDbDown oracleOk req0 initState).2.published = [] := by
  refine ⟨?_, rfl, rfl⟩
  intro status progress message st
  simp [update_status, cfgDbDown, cfg0]

/-! ### Claim C8 -/

/-- C8 counterexample: the claim says a stream opened on a terminal job
emits exactly one synthetic event, ends immediately, and registers no
subscription.  In fact `sse_stream` subscribes first, then
`fetch_task_with_details` raises `AttributeError` from `_fetch_details`:
zero events are emitted, the generator dies before its `try` block, and
the fresh subscription stays registered. -/
theorem c8_counterexample :
    (sse_stream_open cfg0 completedState).1
      = .error (.attributeError "FILE_STORAGE_STRATEGY") ∧
    (sse_stream_open cfg0 completedState).2.streamed = [] ∧
    (sse_stream_open cfg0 completedState).2.subscribers = some [(0, [])] := by
  exact ⟨rfl, rfl, rfl⟩

/-- C8 amended: for every state whose job row exists (terminal or not),
opening the stream first registers a fresh subscription, then raises
`AttributeError` while fetching the snapshot; no event is yielded and the
registration is left behind. -/
theorem c8_amended_stream_open_raises (cfg : EnvCfg) (st : MgrState)
    (row : TaskRow) (hdb : st.db = some row) :
    (sse_stream_open cfg st).1 = .error (.attributeError "FILE_STORAGE_STRATEGY") ∧
    (sse_stream_open cfg st).2.streamed = st.streamed ∧
    (sse_stream_open cfg st).2.subscribers
      = some ((st.subscribers.getD []) ++ [(st.nextQueueId, [])]) := by
  rcases st with ⟨db, dtl, subs, nq, lr, pub, strm, tmp, wc⟩
  dsimp only at hdb
  subst hdb
  simp [sse_stream_open, subscribe, fetch_task_with_details, fetch_details_raises]

/-- C8 witness: the amended theorem applied to a concrete state whose row
is terminal (`failed`). -/
theorem c8_witness :
    (sse_stream_open cfg0 failedState).1
      = .error (.attributeError "FILE_STORAGE_STRATEGY") ∧
    (sse_stream_open cfg0 failedState).2.streamed = failedState.streamed ∧
    (sse_stream_open cfg0 failedState).2.subscribers
      = some ((failedState.subscribers.getD []) ++ [(failedState.nextQueueId, [])]) :=
  c8_amended_stream_open_raises cfg0 failedState ⟨"failed", some 10, some "boom"⟩ rfl

/-! ### Claim C9 -/

/-- C9: the durable-row invariant (failed implies non-empty error message;
progress 100 exactly for completed) is preserved by every
`_update_status` call.  It holds because no such call ever commits a row
change: with the row present, `_fetch_details` raises inside the session
and the partial update is rolled back, so the row is unchanged. -/
theorem c9_invariant_preserved (cfg : EnvCfg) (status : Option String)
    (progress : Option Rat) (message : Option String) (st : MgrState)
    (h : dbInvariant st.db = true) :
    dbInvariant (update_status cfg status progress message st).2.db = true := by
  rw [update_status_state]
  exact h

/-- C9 witness: preservation at the first checkpoint write of a fresh
job. -/
theorem c9_witness :
    dbInvariant initState.db = true ∧
    dbInvariant (update_status cfg0 (some "processing") (some 5)
      (some "开始处理") initState).2.db = true :=
  ⟨by decide,
   c9_invariant_preserved cfg0 (some "processing") (some 5)
     (some "开始处理") initState (by decide)⟩

/-! ### Claim C10 -/

/-- Characters surviving `pyStrip` come from the input list. -/
theorem pyStrip_subset {c : Char} {cs : List Char} (h : c ∈ pyStrip cs) :
    c ∈ cs := by
  unfold pyStrip at h
  rw [List.mem_reverse] at h
  have h1 := (List.dropWhile_sublist _).subset h
  rw [List.mem_reverse] at h1
  exact (List.dropWhile_sublist _).subset h1

/-- Every character produced by the sanitizer pipeline is neither a space
nor one of the invalid filename characters. -/
theorem sanitizeChars_good {c : Char} {cs : List Char}
    (h : c ∈ sanitizeChars cs) : c ≠ ' ' ∧ c ∉ invalidFilenameChars := by
  unfold sanitizeChars at h
  rw [List.mem_map] at h
  obtain ⟨x, hx, rfl⟩ := h
  have hx2 : x ∈ cs.map fun ch => if ch ∈ invalidFilenameChars then '_' else ch :=
    pyStrip_subset hx
  rw [List.mem_map] at hx2
  obtain ⟨y, _, rfl⟩ := hx2
  by_cases hy : y ∈ invalidFilenameChars
  · simp only [if_pos hy]
    decide
  · simp only [if_neg hy]
    by_cases hsp : y = ' '
    · simp only [if_pos hsp]
      decide
    · simp only [if_neg hsp]
      exact ⟨hsp, hy⟩

/-- C10: for every input title, `_sanitize_filename` returns a non-empty
name containing no space and none of the characters of the invalid set
`\\ / : * ? " < > |`, so the produced file name introduces no path
separator. -/
theorem c10_sanitize_filename_safe (name : String) :
    sanitize_filename name ≠ "" ∧
    ∀ c ∈ (sanitize_filename name).toList,
      c ≠ ' ' ∧ c ∉ invalidFilenameChars := by
  unfold sanitize_filename
  by_cases h : String.mk (sanitizeChars name.toList) = ""
  · rw [if_pos h]
    exact ⟨by decide, by decide⟩
  · rw [if_neg h]
    refine ⟨h, ?_⟩
    intro c hc
    exact sanitizeChars_good hc

/-- C10 witness: the theorem at a concrete title containing a space, a
colon and surrounding whitespace. -/
theorem c10_witness :
    sanitize_filename " My: Video " ≠ "" ∧
    ('M' ≠ ' ' ∧ 'M' ∉ invalidFilenameChars) :=
  ⟨(c10_sanitize_filename_safe " My: Video ").1,
   (c10_sanitize_filename_safe " My: Video ").2 'M' (by decide)⟩

end VideoTranscriber
